import Mathlib

/-!
Verification of the EchoV2 provider plugin runtime.

This file gives a shallow embedding, in Lean, of the provider registry
(`backend/core/models/registry.py`) and the model manager
(`backend/core/models/manager.py`) of the EchoV2 repository, together with
theorems settling the specified properties of those components.

Modelling conventions:
* Python dictionaries become association lists with string keys; insertion
  replaces the binding of an existing key in place and appends new keys,
  matching insertion-ordered Python dicts.
* Python exceptions become an explicit `PyExc` type; a function that can
  raise returns `Except PyExc _`.
* Provider classes are modelled by a record of behaviours (whether the
  constructor raises, the result of `validate_config`, whether
  `initialize` raises, and so on), since concrete providers live behind
  the abstract contract of `backend/core/models/base.py`.
* Reference aliasing of nested dictionary values (relevant to the
  `config.copy()` sites) is modelled separately with an explicit heap of
  dictionary objects, below under "Heap model".
-/

/-- First-match lookup in an association list, as for a Python dict
(whose keys are unique, so first match is the only match). -/
def dlookup {κ : Type} [DecidableEq κ] {α : Type} (k : κ) : List (κ × α) → Option α
  | [] => Option.none
  | (k2, v) :: rest => if k2 = k then Option.some v else dlookup k rest

/-- Python dict assignment `d[k] = v`: replace the binding of `k` if
present, otherwise append it. -/
def dinsert {κ : Type} [DecidableEq κ] {α : Type} (k : κ) (v : α) : List (κ × α) → List (κ × α)
  | [] => [(k, v)]
  | (k2, v2) :: rest => if k2 = k then (k, v) :: rest else (k2, v2) :: dinsert k v rest

/-- Python dict deletion `del d[k]`: remove the first binding of `k`
(the only one, for genuine dicts); on an absent key nothing changes. -/
def derase {κ : Type} [DecidableEq κ] {α : Type} (k : κ) : List (κ × α) → List (κ × α)
  | [] => []
  | (k2, v2) :: rest => if k2 = k then rest else (k2, v2) :: derase k rest

/-- Python exception values relevant to the manager and registry.
`ConnectionError`, `TimeoutError` and `OSError` are the transient kinds
named by the retry decorator in `manager.py`; `ValueError` is what the
registry and manager raise themselves; `exception` covers any other
upstream exception. Each carries its message, the result of `str(e)`. -/
inductive PyExc where
  | connectionError (msg : String)
  | timeoutError (msg : String)
  | osError (msg : String)
  | valueError (msg : String)
  | exception (msg : String)
deriving DecidableEq, Repr

/-- The message of an exception: `str(e)`. -/
def excMsg : PyExc → String
  | PyExc.connectionError m => m
  | PyExc.timeoutError m => m
  | PyExc.osError m => m
  | PyExc.valueError m => m
  | PyExc.exception m => m

/-- The retry predicate of the tenacity decorator in `manager.py`:
`retry_if_exception_type((ConnectionError, TimeoutError, OSError))`. -/
def isTransient : PyExc → Bool
  | PyExc.connectionError _ => true
  | PyExc.timeoutError _ => true
  | PyExc.osError _ => true
  | PyExc.valueError _ => false
  | PyExc.exception _ => false

/-- ASCII lowering, modelling `str.lower()` as used by the error
classification in `manager.py`. -/
def strLower (s : String) : String :=
  String.mk (s.toList.map Char.toLower)

/-- Whether `pat` is a prefix of `s`, on character lists. -/
def leadsWith : List Char → List Char → Bool
  | [], _ => true
  | _ :: _, [] => false
  | p :: ps, c :: cs => p = c && leadsWith ps cs

/-- Whether `pat` occurs as a contiguous substring of `s`, on character
lists. -/
def containsSubList (pat : List Char) : List Char → Bool
  | [] => leadsWith pat []
  | c :: t => leadsWith pat (c :: t) || containsSubList pat t

/-- The Python substring test `pat in s`. -/
def containsSub (s pat : String) : Bool :=
  containsSubList pat.toList s.toList

/-- Opaque scalar configuration values. Registry-level claims treat the
configuration mapping as immutable data; the aliasing behaviour of
nested mutable values under `dict.copy()` is studied in the heap model
below. -/
inductive PyVal where
  | vnone
  | vbool (b : Bool)
  | vint (n : Int)
  | vstr (s : String)
deriving DecidableEq, Repr

/-- A provider configuration, a Python dict keyed by strings. -/
abbrev PyDict := List (String × PyVal)

/-- The `dict.copy()` applied at the config-cache sites
(`registry.py` lines 55 and 136). On the immutable value level a
shallow copy denotes the same mapping; the sharing of nested mutable
substructure that a shallow copy entails is analysed in the heap model. -/
def dictCopy (d : PyDict) : PyDict := d

/-- The capability enumeration of `base.py`. -/
inductive PluginCapability where
  | streaming | functionCalling | vision | embeddings | fineTuning | batchProcessing
deriving DecidableEq, Repr

/-- The model-type enumeration of `base.py`. -/
inductive AIModelType where
  | textGeneration | chat | embedding | codeGeneration | imageGeneration | multimodal
deriving DecidableEq, Repr

/-- `PluginMetadata` from `base.py`; datetimes are opaque strings. -/
structure PluginMetadata where
  name : String
  version : String
  description : String
  author : String
  capabilities : List PluginCapability := []
  supportedModelTypes : List AIModelType := []
  dependencies : List String := []
  minPythonVersion : String := "3.8"
  createdAt : Option String := Option.none
  updatedAt : Option String := Option.none
deriving DecidableEq, Repr

/-- `ChatMessage` from `base.py`. -/
structure ChatMessage where
  role : String
  content : String
  timestamp : Option String := Option.none
  metadata : Option PyDict := Option.none
deriving DecidableEq, Repr

/-- `ChatRequest` from `base.py`. Float-valued sampling parameters are
modelled as rationals; they are only carried, never computed with. -/
structure ChatRequest where
  messages : List ChatMessage
  model : Option String := Option.none
  temperature : Option Rat := Option.none
  maxTokens : Option Int := Option.none
  topP : Option Rat := Option.none
  frequencyPenalty : Option Rat := Option.none
  presencePenalty : Option Rat := Option.none
  stream : Bool := false
  stop : Option (Sum String (List String)) := Option.none
  functions : Option (List PyDict) := Option.none
  functionCall : Option (Sum String PyDict) := Option.none
deriving DecidableEq, Repr

/-- `ChatResponse` from `base.py`. -/
structure ChatResponse where
  content : String
  model : String
  usage : Option PyDict := Option.none
  metadata : Option PyDict := Option.none
  functionCall : Option PyDict := Option.none
  finishReason : Option String := Option.none
deriving DecidableEq, Repr

/-- `ProviderStatus` from `base.py`. -/
structure ProviderStatus where
  available : Bool
  models : List String
  capabilities : List PluginCapability := []
  error : Option String := Option.none
  lastCheck : Option String := Option.none
  responseTimeMs : Option Rat := Option.none
deriving DecidableEq, Repr

/-- Behaviour of a registered provider class, the parameters the
abstract contract of `base.py` leaves to each concrete provider. Each
behaviour is a function of the configuration the instance was created
with. A `some msg` in a `...Fails` field means the corresponding call
raises an exception with text `msg`. -/
structure ProviderClass where
  ctorFails : PyDict → Option String
  hasValidateConfig : Bool
  validateConfig : PyDict → Except PyExc Bool
  initFails : PyDict → Option String
  hasMetadata : Bool
  metadata : PluginMetadata
  defaultModel : PyDict → String
  chatCall : PyDict → Nat → ChatRequest → Except PyExc ChatResponse
  shutdownFails : PyDict → Bool
  ensureInitFails : PyDict → Option String
  healthResult : PyDict → Except PyExc ProviderStatus
  reloadFails : PyDict → Option String

/-- A live provider instance: identity (`id` is a freshness stamp drawn
from the registry counter) together with the behaviours fixed at
creation from its class and configuration. -/
structure Instance where
  id : Nat
  providerName : String
  config : PyDict
  defaultModel : String
  chatCall : Nat → ChatRequest → Except PyExc ChatResponse
  shutdownFails : Bool
  ensureInitFails : Option String
  healthResult : Except PyExc ProviderStatus
  reloadFails : Option String
  metadata : PluginMetadata

/-- The state of `ProviderRegistry` (`registry.py`): the class table
`_providers`, the live instance table `_instances`, `_plugin_modules`,
`_plugin_metadata` and `_config_cache`, plus a counter supplying fresh
instance identities. -/
structure RegistryState where
  providers : List (String × ProviderClass)
  instances : List (String × Instance)
  pluginModules : List (String × String)
  pluginMetadata : List (String × PluginMetadata)
  configCache : List (String × PyDict)
  nextId : Nat

/-- Observable steps of `create_instance`, used to state that the
memoized path constructs, validates, initializes and installs nothing. -/
inductive RegEvent where
  | construct
  | validateCfg
  | initCall
  | install
deriving DecidableEq, Repr

/-- The instance object built at `registry.py` line 52, with behaviours
fixed from the class and configuration. -/
def mkInst (fresh : Nat) (name : String) (cfg : PyDict) (cls : ProviderClass) : Instance :=
  { id := fresh
    providerName := name
    config := cfg
    defaultModel := cls.defaultModel cfg
    chatCall := cls.chatCall cfg
    shutdownFails := cls.shutdownFails cfg
    ensureInitFails := cls.ensureInitFails cfg
    healthResult := cls.healthResult cfg
    reloadFails := cls.reloadFails cfg
    metadata := cls.metadata }

/-- The validation block of `create_instance` (`registry.py` lines
43-50): if the freshly constructed temp instance has a
`validate_config` attribute, run it; a `False` verdict raises
`ValueError`, and an exception raised inside validation propagates. -/
def validateStep (cls : ProviderClass) (name : String) (cfg : PyDict) : Except PyExc Unit :=
  if cls.hasValidateConfig then
    match cls.validateConfig cfg with
    | Except.error e => Except.error e
    | Except.ok false =>
      Except.error (PyExc.valueError ("Invalid configuration for provider: " ++ name))
    | Except.ok true => Except.ok ()
  else Except.ok ()

/-- The observable steps of the validation block: one constructor call,
plus a validation call when the class has `validate_config`. -/
def validateEvents (cls : ProviderClass) : List RegEvent :=
  if cls.hasValidateConfig then [RegEvent.construct, RegEvent.validateCfg]
  else [RegEvent.construct]

/-- The state update of a successful `create_instance` (`registry.py`
lines 52-59): install the instance, cache a copy of the config, and
cache the metadata when the instance exposes one. -/
def installInstance (st : RegistryState) (name : String) (cfg : PyDict)
    (cls : ProviderClass) (inst : Instance) : RegistryState :=
  { st with
    instances := dinsert name inst st.instances
    configCache := dinsert name (dictCopy cfg) st.configCache
    pluginMetadata :=
      if cls.hasMetadata then dinsert name cls.metadata st.pluginMetadata
      else st.pluginMetadata
    nextId := st.nextId + 1 }

/-- `ProviderRegistry.create_instance` (`registry.py` lines 34-63).
Besides the result and the updated state it reports the observable
steps taken (constructor calls, validation, initialization,
installation), which are empty on the memoized path. On any raising
path the returned state equals the input state, since the Python code
only mutates the tables after `initialize()` returns. -/
def createInstance (st : RegistryState) (name : String) (cfg : PyDict) :
    Except PyExc Instance × RegistryState × List RegEvent :=
  match dlookup name st.providers with
  | Option.none =>
    (Except.error (PyExc.valueError ("Unknown provider: " ++ name)), st, [])
  | Option.some cls =>
    match dlookup name st.instances with
    | Option.some inst => (Except.ok inst, st, [])
    | Option.none =>
      -- temp_instance = provider_class(config)
      match cls.ctorFails cfg with
      | Option.some m => (Except.error (PyExc.exception m), st, [RegEvent.construct])
      | Option.none =>
        match validateStep cls name cfg with
        | Except.error e => (Except.error e, st, validateEvents cls)
        | Except.ok _ =>
          -- instance = provider_class(config)
          match cls.ctorFails cfg with
          | Option.some m =>
            (Except.error (PyExc.exception m), st, validateEvents cls ++ [RegEvent.construct])
          | Option.none =>
            match cls.initFails cfg with
            | Option.some m =>
              (Except.error (PyExc.exception m), st,
               validateEvents cls ++ [RegEvent.construct, RegEvent.initCall])
            | Option.none =>
              (Except.ok (mkInst st.nextId name cfg cls),
               installInstance st name cfg cls (mkInst st.nextId name cfg cls),
               validateEvents cls ++ [RegEvent.construct, RegEvent.initCall, RegEvent.install])

/-- Environment for `reload_provider`: whether reloading the module at
a given path (`_reload_module`, `registry.py` lines 100-118) raises.
The module system side effects of a successful reload are irrelevant to
the claims and not modelled. -/
structure ReloadEnv where
  moduleReloadFails : String → Bool

/-- Whether the module-reload step of `reload_provider` for `name`
raises: true exactly when a module path is registered for `name` and
reloading it fails. -/
def moduleReloadFailedB (env : ReloadEnv) (st : RegistryState) (name : String) : Bool :=
  match dlookup name st.pluginModules with
  | Option.some path => env.moduleReloadFails path
  | Option.none => false

/-- `ProviderRegistry.reload_provider` (`registry.py` lines 65-98).
The whole body runs under a `try` whose handler returns `False`, so
every raising step turns into a `false` result with whatever state had
been reached. A `shutdown()` failure of the old instance is swallowed
by the inner handler and does not stop the reload. -/
def reloadProvider (env : ReloadEnv) (st : RegistryState) (name : String)
    (newConfig : Option PyDict) : Bool × RegistryState :=
  match dlookup name st.providers with
  | Option.none => (false, st)
  | Option.some _ =>
    let existing := dlookup name st.instances
    -- config = new_config or self._config_cache.get(provider_name, {}):
    -- a falsy (empty) new_config also falls back to the cached config.
    let cfg : PyDict :=
      match newConfig with
      | Option.some c => if c.isEmpty then (dlookup name st.configCache).getD [] else c
      | Option.none => (dlookup name st.configCache).getD []
    if moduleReloadFailedB env st name then (false, st)
    else
      let st1 :=
        match existing with
        | Option.some _ => { st with instances := derase name st.instances }
        | Option.none => st
      match createInstance st1 name cfg with
      | (Except.ok _, st2, _) => (true, st2)
      | (Except.error _, st2, _) => (false, st2)

/-- `ProviderRegistry.update_provider_config` (`registry.py` lines
120-143): requires a live instance, validates the new config against
it, reloads the instance in place and caches a copy of the new config
only on success. -/
def updateProviderConfig (st : RegistryState) (name : String) (newConfig : PyDict) :
    Bool × RegistryState :=
  match dlookup name st.instances with
  | Option.none => (false, st)
  | Option.some inst =>
    match inst.reloadFails with
    | Option.some _ => (false, st)
    | Option.none =>
      (true, { st with configCache := dinsert name (dictCopy newConfig) st.configCache })

/-- The common tail of `unregister_provider`: remove the per-name
entries from the class, module, metadata and config tables and report
success. -/
def unregisterRest (st : RegistryState) (name : String) : Bool × RegistryState :=
  (true,
   { st with
     providers := derase name st.providers
     pluginModules := derase name st.pluginModules
     pluginMetadata := derase name st.pluginMetadata
     configCache := derase name st.configCache })

/-- `ProviderRegistry.unregister_provider` (`registry.py` lines
145-172). If a live instance is present its `shutdown()` runs first; a
raising shutdown is caught by the enclosing handler, which returns
`False` before any table has been touched. In every other case the
function removes whatever per-name entries exist and returns `True`,
including for names that were never registered. -/
def unregisterProvider (st : RegistryState) (name : String) : Bool × RegistryState :=
  match dlookup name st.instances with
  | Option.some inst =>
    if inst.shutdownFails then (false, st)
    else unregisterRest { st with instances := derase name st.instances } name
  | Option.none => unregisterRest st name

/-- `ProviderRegistry.get_instance` (`registry.py` lines 174-176). -/
def getInstance (st : RegistryState) (name : String) : Option Instance :=
  dlookup name st.instances

/-- `ProviderRegistry.list_instances` (`registry.py` lines 182-184). -/
def listInstances (st : RegistryState) : List String :=
  st.instances.map Prod.fst

/-- `ProviderRegistry.list_providers` (`registry.py` lines 178-180). -/
def listProviders (st : RegistryState) : List String :=
  st.providers.map Prod.fst

/-- The unavailable status synthesized by `health_check_all` for an
instance whose check raised, carrying `str(e)`. -/
def synthUnavailable (msg : String) : ProviderStatus :=
  { available := false, models := [], error := Option.some msg }

/-- The status `health_check_all` reports for one instance: the result
of its `health_check()`, unless `_ensure_initialized()` or
`health_check()` raises, in which case the synthesized unavailable
status carrying the error text. -/
def healthEntry (inst : Instance) : ProviderStatus :=
  match inst.ensureInitFails with
  | Option.some m => synthUnavailable m
  | Option.none =>
    match inst.healthResult with
    | Except.error e => synthUnavailable (excMsg e)
    | Except.ok s => s

/-- `ProviderRegistry.health_check_all` (`registry.py` lines 194-208):
one status per live instance, never raising itself. -/
def healthCheckAll (st : RegistryState) : List (String × ProviderStatus) :=
  st.instances.map (fun p => (p.1, healthEntry p.2))

/-- Whether an instance raises during its turn of `health_check_all`
(either in `_ensure_initialized` or in `health_check`). -/
def instRaises (inst : Instance) : Bool :=
  match inst.ensureInitFails with
  | Option.some _ => true
  | Option.none =>
    match inst.healthResult with
    | Except.error _ => true
    | Except.ok _ => false

/-- The retry loop produced by the tenacity decorator on
`ModelManager._chat_completion_with_retry` (`manager.py` lines 38-52):
`stop_after_attempt` bounds the number of attempts, only transient
exceptions are retried, and `reraise=True` re-raises the original
exception on giving up. The first `Nat` argument is the number of
attempts still allowed including the current one, the second the
1-based index of the current attempt; the second component of the
result is the index of the last attempt performed, that is the number
of calls made. The
exponential backoff between attempts is a timing matter with no
functional content and is not modelled. -/
def retryGo (call : Nat → Except PyExc ChatResponse) :
    Nat → Nat → Except PyExc ChatResponse × Nat
  | 0, attempt =>
    match call attempt with
    | Except.ok r => (Except.ok r, attempt)
    | Except.error e => (Except.error e, attempt)
  | 1, attempt =>
    match call attempt with
    | Except.ok r => (Except.ok r, attempt)
    | Except.error e => (Except.error e, attempt)
  | Nat.succ (Nat.succ rem), attempt =>
    match call attempt with
    | Except.ok r => (Except.ok r, attempt)
    | Except.error e =>
      if isTransient e then retryGo call (Nat.succ rem) (attempt + 1)
      else (Except.error e, attempt)

/-- `_chat_completion_with_retry` with its decorator configuration
`stop_after_attempt(3)`. -/
def chatCompletionWithRetry (inst : Instance) (req : ChatRequest) :
    Except PyExc ChatResponse × Nat :=
  retryGo (fun i => inst.chatCall i req) 3 1

/-- Python truthiness of `request.model`: `not request.model` holds for
a missing model and for the empty string. -/
def modelFalsy : Option String → Bool
  | Option.none => true
  | Option.some s => s = ""

/-- The default-model fill of `ModelManager.chat_completion`
(`manager.py` lines 69-70): `if not request.model: request.model =
provider.get_default_model()`. The mutation of the request object is
modelled by returning the updated request. -/
def fillModel (inst : Instance) (req : ChatRequest) : ChatRequest :=
  if modelFalsy req.model then { req with model := Option.some inst.defaultModel } else req

/-- Rendering of `request.model` inside an f-string; an unset model
prints as `None`. -/
def modelStr : Option String → String
  | Option.none => "None"
  | Option.some s => s

/-- The error reclassification of `ModelManager.chat_completion`
(`manager.py` lines 77-87), applied to the exception that survived the
retry wrapper: an if/elif chain over `str(e).lower()`. -/
def classifyError (providerName : String) (modelName : String) (e : PyExc) : PyExc :=
  let s := strLower (excMsg e)
  if containsSub s "authentication" || containsSub s "api key" then
    PyExc.valueError ("Authentication failed for " ++ providerName ++ ". Please check your API key.")
  else if containsSub s "rate limit" || containsSub s "quota" then
    PyExc.valueError ("Rate limit exceeded for " ++ providerName ++ ". Please try again later.")
  else if containsSub s "connection" || containsSub s "timeout" then
    PyExc.connectionError ("Connection failed to " ++ providerName ++ ". Please check your internet connection.")
  else if containsSub s "model" && containsSub s "not found" then
    PyExc.valueError ("Model \x27" ++ modelName ++ "\x27 not available for " ++ providerName ++ ".")
  else
    PyExc.valueError ("Request failed for " ++ providerName ++ ": " ++ excMsg e)

/-- `ModelManager.chat_completion` (`manager.py` lines 54-87), acting
on an already-initialized manager (the idempotent warm-up call at line
60 is a no-op then). Resolves the provider name (a falsy explicit name
falls back to the default), looks up the live instance, fills a falsy
request model with the provider default model, runs the retried call
and reclassifies a final failure. Returns the result together with the
final state of the (mutated) request object. -/
def managerChatCompletion (defaultProvider : String) (st : RegistryState)
    (req : ChatRequest) (providerName : Option String) :
    Except PyExc ChatResponse × ChatRequest :=
  let name :=
    match providerName with
    | Option.none => defaultProvider
    | Option.some n => if n = "" then defaultProvider else n
  match getInstance st name with
  | Option.none => (Except.error (PyExc.valueError ("Provider not available: " ++ name)), req)
  | Option.some inst =>
    let req2 := fillModel inst req
    match chatCompletionWithRetry inst req2 with
    | (Except.ok r, _) => (Except.ok r, req2)
    | (Except.error e, _) =>
      (Except.error (classifyError name (modelStr req2.model) e), req2)

/-- `ModelManager.list_providers` (`manager.py` lines 104-106):
delegates to `registry.list_instances`. -/
def managerListProviders (st : RegistryState) : List String :=
  listInstances st

/-!
## Heap model of configuration dictionaries

The registry caches configurations with `config.copy()` (`registry.py`
lines 55 and 136), which in Python is a shallow copy: a new top-level
dict whose values are the same object references. To reason about the
aliasing this produces, dictionaries are modelled here as objects in an
explicit heap: a dict value is either an immutable primitive or a
reference to another dict object.
-/

/-- Heap address of a mutable dict object. -/
abbrev Addr := Nat

/-- A value stored in a Python dict: an immutable primitive, or a
reference to another (mutable) dict object on the heap. -/
inductive HVal where
  | prim (s : String)
  | ref (a : Addr)
deriving DecidableEq, Repr

/-- The payload of one dict object: its own key/value entries. -/
abbrev DictPayload := List (String × HVal)

/-- A heap of dict objects. -/
abbrev Heap := List (Addr × DictPayload)

/-- The payload of the object at address `a` (empty for a dangling
address, which well-formed states never produce). -/
def heapGet (h : Heap) (a : Addr) : DictPayload :=
  (dlookup a h).getD []

/-- Overwrite the object at address `a`. -/
def heapSet (h : Heap) (a : Addr) (p : DictPayload) : Heap :=
  dinsert a p h

/-- The caller-side mutation `d[k] = v` on the dict object at `a`. -/
def setKey (h : Heap) (a : Addr) (k : String) (v : HVal) : Heap :=
  heapSet h a (dinsert k v (heapGet h a))

/-- `config.copy()` as executed by the config-cache assignments
(`registry.py` lines 55 and 136): the payload of the new cache-owned
dict object is the entry list of the caller-supplied dict, so nested
references are shared between caller and cache. -/
def shallowCopyPayload (h : Heap) (a : Addr) : DictPayload :=
  heapGet h a

/-- The payload the registry stores in `_config_cache[name]` when the
caller-supplied config lives at `callerAddr`. -/
def cacheStore (h : Heap) (callerAddr : Addr) : DictPayload :=
  shallowCopyPayload h callerAddr

/-- The value tree a dict denotes once references are followed, cut off
at a fuel bound (only relevant to cyclic heaps). -/
inductive PyTree where
  | prim (s : String)
  | dict (entries : List (String × PyTree))
  | truncated

/-- Denotation of a single dict value under a heap, following
references for at most `fuel` levels. -/
def denoteHV (h : Heap) (fuel : Nat) (v : HVal) : PyTree :=
  match v with
  | HVal.prim s => PyTree.prim s
  | HVal.ref a =>
    match fuel with
    | 0 => PyTree.truncated
    | Nat.succ f => PyTree.dict ((heapGet h a).map (fun kv => (kv.1, denoteHV h f kv.2)))

/-- Denotation of a dict payload: the observable value of the mapping. -/
def denoteEntries (h : Heap) (fuel : Nat) (p : DictPayload) : List (String × PyTree) :=
  p.map (fun kv => (kv.1, denoteHV h fuel kv.2))

/-- The dict object at `a` is reachable from payload `p`: some value of
`p` references it, directly or through further dict objects. -/
inductive ReachesFrom (h : Heap) : DictPayload → Addr → Prop where
  | head {p : DictPayload} {k : String} {a : Addr}
      (hmem : (k, HVal.ref a) ∈ p) : ReachesFrom h p a
  | step {p : DictPayload} {k : String} {a b : Addr}
      (hmem : (k, HVal.ref a) ∈ p)
      (hrest : ReachesFrom h (heapGet h a) b) : ReachesFrom h p b

/-!
## Concrete fixtures

States, classes and requests used by the witness and counterexample
theorems below.
-/

/-- Metadata of the demonstration provider. -/
def demoMeta : PluginMetadata :=
  { name := "echo", version := "1.0", description := "echo provider", author := "tests" }

/-- A healthy status listing one model. -/
def demoStatus : ProviderStatus :=
  { available := true, models := ["m1"] }

/-- A well-behaved provider class: construction, validation and
initialization succeed, the default model is `m1`, and every chat call
echoes the request model back in the response. -/
def echoClass : ProviderClass :=
  { ctorFails := fun _ => Option.none
    hasValidateConfig := true
    validateConfig := fun _ => Except.ok true
    initFails := fun _ => Option.none
    hasMetadata := true
    metadata := demoMeta
    defaultModel := fun _ => "m1"
    chatCall := fun _ _ req => Except.ok { content := "hi", model := modelStr req.model }
    shutdownFails := fun _ => false
    ensureInitFails := fun _ => Option.none
    healthResult := fun _ => Except.ok demoStatus
    reloadFails := fun _ => Option.none }

/-- The empty registry. -/
def emptyRegistry : RegistryState :=
  { providers := [], instances := [], pluginModules := [], pluginMetadata := [],
    configCache := [], nextId := 0 }

/-- A registry with `echo` registered but not instantiated. -/
def demoRegistry : RegistryState :=
  { emptyRegistry with providers := [("echo", echoClass)] }

/-- A first configuration. -/
def demoCfgA : PyDict := [("k", PyVal.vstr "a")]

/-- A different configuration. -/
def demoCfgB : PyDict := [("k", PyVal.vstr "b")]

/-- The instance `create_instance "echo" demoCfgA` builds from
`demoRegistry`. -/
def demoInst : Instance := mkInst 0 "echo" demoCfgA echoClass

/-- The registry state after that successful creation. -/
def demoRegistry2 : RegistryState :=
  { demoRegistry with
    instances := [("echo", demoInst)]
    configCache := [("echo", demoCfgA)]
    pluginMetadata := [("echo", demoMeta)]
    nextId := 1 }

/-- The live instance of provider `p` in the reload fixtures. -/
def pInst0 : Instance := mkInst 0 "p" demoCfgA echoClass

/-- A registry with a live `p` instance that has a registered plugin
module path, as after discovery plus creation. -/
def stLive : RegistryState :=
  { providers := [("p", echoClass)]
    instances := [("p", pInst0)]
    pluginModules := [("p", "plugins/p_provider.py")]
    pluginMetadata := [("p", demoMeta)]
    configCache := [("p", demoCfgA)]
    nextId := 1 }

/-- An environment in which reloading any module raises. -/
def envFailing : ReloadEnv := { moduleReloadFails := fun _ => true }

/-- An environment in which module reloads succeed. -/
def envOk : ReloadEnv := { moduleReloadFails := fun _ => false }

/-- A class whose `validate_config` answers `False`. -/
def invalidCfgClass : ProviderClass :=
  { echoClass with validateConfig := fun _ => Except.ok false }

/-- A class whose `initialize` raises. -/
def initFailClass : ProviderClass :=
  { echoClass with initFails := fun _ => Option.some "no credentials" }

/-- A registry with one invalid-config class and one failing-init
class registered, nothing instantiated. -/
def badRegistry : RegistryState :=
  { emptyRegistry with providers := [("bad", invalidCfgClass), ("ifail", initFailClass)] }

/-- A class whose health check raises. -/
def healthRaiseClass : ProviderClass :=
  { echoClass with healthResult := fun _ => Except.error (PyExc.exception "boom") }

/-- A class whose health check returns an unavailable status without
raising. -/
def healthDownClass : ProviderClass :=
  { echoClass with healthResult := fun _ => Except.ok { available := false, models := [] } }

/-- Instance of the raising health class. -/
def instRaise : Instance := mkInst 0 "a" [] healthRaiseClass

/-- Instance of the unavailable-but-not-raising health class. -/
def instDown : Instance := mkInst 1 "b" [] healthDownClass

/-- Registry with two live instances: one raising health check, one
reporting unavailable without raising. -/
def stHealth : RegistryState :=
  { providers := [("a", healthRaiseClass), ("b", healthDownClass)]
    instances := [("a", instRaise), ("b", instDown)]
    pluginModules := []
    pluginMetadata := []
    configCache := []
    nextId := 2 }

/-- A provider whose first chat call raises a connection error, second
a timeout, and third succeeds. -/
def flakyClass : ProviderClass :=
  { echoClass with
    chatCall := fun _ i req =>
      if i = 1 then Except.error (PyExc.connectionError "refused")
      else if i = 2 then Except.error (PyExc.timeoutError "timed out")
      else Except.ok { content := "ok", model := modelStr req.model } }

/-- Live instance of the flaky provider. -/
def flakyInst : Instance := mkInst 0 "flaky" [] flakyClass

/-- Registry with the flaky provider live. -/
def stFlaky : RegistryState :=
  { emptyRegistry with
    providers := [("flaky", flakyClass)]
    instances := [("flaky", flakyInst)]
    nextId := 1 }

/-- A provider whose chat call always raises a non-transient error. -/
def fatalClass : ProviderClass :=
  { echoClass with chatCall := fun _ _ _ => Except.error (PyExc.valueError "bad request") }

/-- Live instance of the fatal provider. -/
def fatalInst : Instance := mkInst 0 "fatal" [] fatalClass

/-- Registry with the fatal provider live. -/
def stFatal : RegistryState :=
  { emptyRegistry with
    providers := [("fatal", fatalClass)]
    instances := [("fatal", fatalInst)]
    nextId := 1 }

/-- A provider whose chat call raises with a rate-limit error text. -/
def rateLimitClass : ProviderClass :=
  { echoClass with chatCall := fun _ _ _ => Except.error (PyExc.exception "Rate limit exceeded") }

/-- Live instance of the rate-limited provider. -/
def rateLimitInst : Instance := mkInst 0 "rl" [] rateLimitClass

/-- Registry with the rate-limited provider live. -/
def stRateLimit : RegistryState :=
  { emptyRegistry with
    providers := [("rl", rateLimitClass)]
    instances := [("rl", rateLimitInst)]
    nextId := 1 }

/-- A one-message user request with no model set. -/
def reqHi : ChatRequest :=
  { messages := [{ role := "user", content := "hi" }] }

/-- The same request with the model explicitly set to the empty
string, which Python truthiness treats as unset. -/
def reqEmptyModel : ChatRequest :=
  { messages := [{ role := "user", content := "hi" }], model := Option.some "" }

/-- Registry with one raising-health instance and one healthy
instance. -/
def stHealthMix : RegistryState :=
  { providers := [("a", healthRaiseClass), ("b", echoClass)]
    instances := [("a", instRaise), ("b", demoInst)]
    pluginModules := []
    pluginMetadata := []
    configCache := []
    nextId := 2 }

/-- The one-message request with a non-empty model set by the caller. -/
def reqM2 : ChatRequest :=
  { messages := [{ role := "user", content := "hi" }], model := Option.some "m2" }

/-- A heap with a nested configuration: the caller-supplied dict lives
at address 1 and holds a reference to the inner dict at address 0. -/
def hNested : Heap :=
  [(0, [("k", HVal.prim "v1")]), (1, [("nested", HVal.ref 0)])]

/-- A heap whose caller-supplied dict (at address 5) is flat: all its
values are primitives. -/
def hFlat : Heap :=
  [(5, [("k0", HVal.prim "v")])]

/-- Well-formedness of a registry state: each table, being a Python
dict, has no duplicate keys. Every state reachable from the empty
registry through the registry operations satisfies this. -/
def RegNodup (st : RegistryState) : Prop :=
  (st.providers.map Prod.fst).Nodup ∧
  (st.instances.map Prod.fst).Nodup ∧
  (st.pluginModules.map Prod.fst).Nodup ∧
  (st.pluginMetadata.map Prod.fst).Nodup ∧
  (st.configCache.map Prod.fst).Nodup

/-!
## Association-list lemmas
-/

theorem dlookup_dinsert_self {κ α : Type} [DecidableEq κ] (k : κ) (v : α)
    (l : List (κ × α)) : dlookup k (dinsert k v l) = Option.some v := by
  induction l with
  | nil => simp [dinsert, dlookup]
  | cons hd tl ih =>
    obtain ⟨k2, v2⟩ := hd
    by_cases h : k2 = k
    · simp [dinsert, dlookup, h]
    · simp [dinsert, dlookup, h, ih]

theorem dlookup_dinsert_ne {κ α : Type} [DecidableEq κ] {k k2 : κ} (v : α)
    (l : List (κ × α)) (h : ¬ k2 = k) :
    dlookup k (dinsert k2 v l) = dlookup k l := by
  induction l with
  | nil => simp [dinsert, dlookup, h]
  | cons hd tl ih =>
    obtain ⟨k3, v3⟩ := hd
    by_cases h3 : k3 = k2
    · subst h3
      simp [dinsert, dlookup, h]
    · simp only [dinsert, if_neg h3, dlookup]
      by_cases h4 : k3 = k
      · simp [h4]
      · simp [h4, ih]

theorem dlookup_none_not_mem {κ α : Type} [DecidableEq κ] {k : κ}
    {l : List (κ × α)} (h : dlookup k l = Option.none) : k ∉ l.map Prod.fst := by
  induction l with
  | nil => simp
  | cons hd tl ih =>
    obtain ⟨k2, v2⟩ := hd
    by_cases h2 : k2 = k
    · simp [dlookup, h2] at h
    · simp only [dlookup, if_neg h2] at h
      simp [ih h, h2, Ne.symm h2]

theorem not_mem_dlookup_none {κ α : Type} [DecidableEq κ] {k : κ}
    {l : List (κ × α)} (h : k ∉ l.map Prod.fst) : dlookup k l = Option.none := by
  induction l with
  | nil => rfl
  | cons hd tl ih =>
    obtain ⟨k2, v2⟩ := hd
    simp only [List.map_cons, List.mem_cons] at h
    push_neg at h
    simp [dlookup, Ne.symm h.1, ih h.2]

theorem dlookup_mem {κ α : Type} [DecidableEq κ] {k : κ} {v : α}
    {l : List (κ × α)} (h : dlookup k l = Option.some v) : (k, v) ∈ l := by
  induction l with
  | nil => simp [dlookup] at h
  | cons hd tl ih =>
    obtain ⟨k2, v2⟩ := hd
    by_cases h2 : k2 = k
    · simp only [dlookup, if_pos h2, Option.some.injEq] at h
      subst h2
      subst h
      exact List.mem_cons_self _ _
    · simp only [dlookup, if_neg h2] at h
      exact List.mem_cons_of_mem _ (ih h)

theorem dlookup_derase_self {κ α : Type} [DecidableEq κ] (k : κ)
    {l : List (κ × α)} (h : (l.map Prod.fst).Nodup) :
    dlookup k (derase k l) = Option.none := by
  induction l with
  | nil => rfl
  | cons hd tl ih =>
    obtain ⟨k2, v2⟩ := hd
    simp only [List.map_cons, List.nodup_cons] at h
    by_cases h2 : k2 = k
    · subst h2
      simp only [derase, if_pos rfl]
      exact not_mem_dlookup_none h.1
    · simp [derase, dlookup, h2, ih h.2]

/-!
## create_instance lemmas
-/

theorem createInstance_error_state {st : RegistryState} {name : String} {cfg : PyDict}
    {e : PyExc} {st2 : RegistryState} {tr : List RegEvent}
    (h : createInstance st name cfg = (Except.error e, st2, tr)) : st2 = st := by
  unfold createInstance at h
  repeat' split at h
  all_goals simp_all

theorem createInstance_ok_cases {st st2 : RegistryState} {name : String} {cfg : PyDict}
    {inst : Instance} {tr : List RegEvent}
    (h : createInstance st name cfg = (Except.ok inst, st2, tr)) :
    ∃ cls, dlookup name st.providers = Option.some cls ∧
      ((dlookup name st.instances = Option.some inst ∧ st2 = st ∧ tr = []) ∨
       (dlookup name st.instances = Option.none ∧
        inst = mkInst st.nextId name cfg cls ∧
        st2 = installInstance st name cfg cls (mkInst st.nextId name cfg cls))) := by
  unfold createInstance at h
  split at h
  · exact absurd h (by simp)
  · rename_i cls hp
    split at h
    · rename_i inst2 hi
      refine ⟨cls, hp, Or.inl ?_⟩
      simp only [Prod.mk.injEq, Except.ok.injEq] at h
      obtain ⟨h1, h2, h3⟩ := h
      exact ⟨h1 ▸ hi, h2.symm, h3.symm⟩
    · rename_i hi
      refine ⟨cls, hp, Or.inr ?_⟩
      repeat' split at h
      all_goals first
        | (simp only [Prod.mk.injEq, Except.ok.injEq] at h
           obtain ⟨h1, h2, h3⟩ := h
           subst h1
           exact ⟨hi, rfl, h2.symm⟩)
        | simp_all

/-- C2: `create_instance` is memoizing. If a first call
`create_instance name cfg0` from state `st0` succeeded, returning
`inst` and leaving state `st`, then a second call with any
configuration `cfg` returns the very same instance `inst`, leaves the
state `st` completely unchanged, and performs no construction,
validation, initialization or installation step (its event trace is
empty) — so exactly the one installed instance exists for the name. -/
theorem createInstance_memoized (st0 st : RegistryState) (name : String)
    (cfg0 cfg : PyDict) (inst : Instance) (tr : List RegEvent)
    (h : createInstance st0 name cfg0 = (Except.ok inst, st, tr)) :
    createInstance st name cfg = (Except.ok inst, st, []) := by
  obtain ⟨cls, hp, hcase⟩ := createInstance_ok_cases h
  rcases hcase with ⟨hi, rfl, rfl⟩ | ⟨hi, rfl, rfl⟩
  · unfold createInstance
    rw [hp, hi]
  · unfold createInstance
    have hp2 : dlookup name
        (installInstance st0 name cfg0 cls (mkInst st0.nextId name cfg0 cls)).providers =
        Option.some cls := hp
    have hi2 : dlookup name
        (installInstance st0 name cfg0 cls (mkInst st0.nextId name cfg0 cls)).instances =
        Option.some (mkInst st0.nextId name cfg0 cls) :=
      dlookup_dinsert_self name (mkInst st0.nextId name cfg0 cls) st0.instances
    rw [hp2, hi2]

/-- Witness for `createInstance_memoized`: after creating `echo` with
config `demoCfgA`, a second creation with the different config
`demoCfgB` returns the original instance, changes nothing and takes no
step. -/
theorem createInstance_memoized_witness :
    createInstance demoRegistry2 "echo" demoCfgB = (Except.ok demoInst, demoRegistry2, []) :=
  createInstance_memoized demoRegistry demoRegistry2 "echo" demoCfgA demoCfgB demoInst
    [RegEvent.construct, RegEvent.validateCfg, RegEvent.construct, RegEvent.initCall,
     RegEvent.install]
    (by rfl)

/-- C3: `create_instance` fails atomically. An unregistered name
raises the unknown-provider `ValueError` and changes nothing; any
failing call leaves the registry state exactly as it was (no instance,
config-cache or metadata entry is added); a `False` verdict from
`validate_config` raises the invalid-configuration `ValueError`
without installing; a raising `initialize` propagates its exception
without installing. -/
theorem createInstance_atomic_failure (st : RegistryState) (name : String) (cfg : PyDict) :
    (dlookup name st.providers = Option.none →
      createInstance st name cfg =
        (Except.error (PyExc.valueError ("Unknown provider: " ++ name)), st, [])) ∧
    (∀ e st2 tr, createInstance st name cfg = (Except.error e, st2, tr) → st2 = st) ∧
    (∀ cls, dlookup name st.providers = Option.some cls →
      dlookup name st.instances = Option.none →
      cls.ctorFails cfg = Option.none → cls.hasValidateConfig = true →
      cls.validateConfig cfg = Except.ok false →
      createInstance st name cfg =
        (Except.error (PyExc.valueError ("Invalid configuration for provider: " ++ name)), st,
         [RegEvent.construct, RegEvent.validateCfg])) ∧
    (∀ cls m, dlookup name st.providers = Option.some cls →
      dlookup name st.instances = Option.none →
      cls.ctorFails cfg = Option.none → cls.hasValidateConfig = true →
      cls.validateConfig cfg = Except.ok true → cls.initFails cfg = Option.some m →
      createInstance st name cfg =
        (Except.error (PyExc.exception m), st,
         [RegEvent.construct, RegEvent.validateCfg, RegEvent.construct, RegEvent.initCall])) := by
  refine ⟨?_, ?_, ?_, ?_⟩
  · intro hp
    unfold createInstance
    rw [hp]
  · intro e st2 tr h
    exact createInstance_error_state h
  · intro cls hp hi hc hh hv
    simp [createInstance, hp, hi, hc, validateStep, validateEvents, hh, hv]
  · intro cls m hp hi hc hh hv hinit
    simp [createInstance, hp, hi, hc, validateStep, validateEvents, hh, hv, hinit]

/-- Witness for `createInstance_atomic_failure`: an unknown name, a
rejected configuration and a failing initialization, each leaving
`badRegistry` untouched. -/
theorem createInstance_atomic_failure_witness :
    createInstance badRegistry "ghost" demoCfgA =
      (Except.error (PyExc.valueError ("Unknown provider: " ++ "ghost")), badRegistry, []) ∧
    badRegistry = badRegistry ∧
    createInstance badRegistry "bad" demoCfgA =
      (Except.error (PyExc.valueError ("Invalid configuration for provider: " ++ "bad")),
       badRegistry, [RegEvent.construct, RegEvent.validateCfg]) ∧
    createInstance badRegistry "ifail" demoCfgA =
      (Except.error (PyExc.exception "no credentials"), badRegistry,
       [RegEvent.construct, RegEvent.validateCfg, RegEvent.construct, RegEvent.initCall]) :=
  ⟨(createInstance_atomic_failure badRegistry "ghost" demoCfgA).1 rfl,
   (createInstance_atomic_failure badRegistry "bad" demoCfgA).2.1
     (PyExc.valueError ("Invalid configuration for provider: " ++ "bad")) badRegistry
     [RegEvent.construct, RegEvent.validateCfg] (by rfl),
   (createInstance_atomic_failure badRegistry "bad" demoCfgA).2.2.1 invalidCfgClass
     rfl rfl rfl rfl rfl,
   (createInstance_atomic_failure badRegistry "ifail" demoCfgA).2.2.2 initFailClass
     "no credentials" rfl rfl rfl rfl rfl rfl⟩

/-- Counterexample to C7 as stated: `unregister_provider` on a name
that was never registered returns `True`, not the claimed `False`; the
only `False` outcome of the function is a raising shutdown. -/
theorem unregisterProvider_unregistered_returns_true :
    (unregisterProvider emptyRegistry "ghost").1 = true ∧
    ¬ (unregisterProvider emptyRegistry "ghost").1 = false := by
  decide

/-- C7 (amended): `unregister_provider` never raises and returns
`true` both on a name that was never registered (a no-op removal) and
on a registered name, provided a present live instance shuts down
without raising; afterwards no class, instance, module, metadata or
config-cache entry remains for the name, and a second call again
returns `true` (not `false` as the original claim stated). -/
theorem unregisterProvider_always_true_removal (st : RegistryState) (name : String)
    (hnd : RegNodup st)
    (hsd : match dlookup name st.instances with
           | Option.some inst => inst.shutdownFails = false
           | Option.none => True) :
    (unregisterProvider st name).1 = true ∧
    dlookup name (unregisterProvider st name).2.providers = Option.none ∧
    dlookup name (unregisterProvider st name).2.instances = Option.none ∧
    dlookup name (unregisterProvider st name).2.pluginModules = Option.none ∧
    dlookup name (unregisterProvider st name).2.pluginMetadata = Option.none ∧
    dlookup name (unregisterProvider st name).2.configCache = Option.none ∧
    (unregisterProvider (unregisterProvider st name).2 name).1 = true := by
  obtain ⟨hp, hi, hm, hmd, hc⟩ := hnd
  cases hinst : dlookup name st.instances with
  | none =>
    simp [unregisterProvider, hinst, unregisterRest, dlookup_derase_self name hp,
          dlookup_derase_self name hm, dlookup_derase_self name hmd,
          dlookup_derase_self name hc]
  | some inst =>
    rw [hinst] at hsd
    simp [unregisterProvider, hinst, hsd, unregisterRest, dlookup_derase_self name hp,
          dlookup_derase_self name hi, dlookup_derase_self name hm,
          dlookup_derase_self name hmd, dlookup_derase_self name hc]

/-- Witness for `unregisterProvider_always_true_removal` at the live
registry `stLive`: first call true and removes everything, second call
true again. -/
theorem unregisterProvider_always_true_removal_witness :
    (unregisterProvider stLive "p").1 = true ∧
    dlookup "p" (unregisterProvider stLive "p").2.providers = Option.none ∧
    dlookup "p" (unregisterProvider stLive "p").2.instances = Option.none ∧
    dlookup "p" (unregisterProvider stLive "p").2.pluginModules = Option.none ∧
    dlookup "p" (unregisterProvider stLive "p").2.pluginMetadata = Option.none ∧
    dlookup "p" (unregisterProvider stLive "p").2.configCache = Option.none ∧
    (unregisterProvider (unregisterProvider stLive "p").2 "p").1 = true :=
  unregisterProvider_always_true_removal stLive "p"
    (by unfold RegNodup; exact ⟨by decide, by decide, by decide, by decide, by decide⟩)
    (by rfl)

/-- C10: the manager `list_providers` answers from the live-instance
table, so a registered but never instantiated name is absent from it. -/
theorem managerListProviders_instance_table (st : RegistryState) (name : String)
    (_hreg : name ∈ listProviders st) (hninst : dlookup name st.instances = Option.none) :
    name ∉ managerListProviders st ∧ managerListProviders st = st.instances.map Prod.fst := by
  refine ⟨?_, rfl⟩
  intro hmem
  exact dlookup_none_not_mem hninst hmem

/-- Witness for `managerListProviders_instance_table`: `echo` is
registered in `demoRegistry` but has no live instance, and indeed does
not appear in the manager listing. -/
theorem managerListProviders_instance_table_witness :
    "echo" ∉ managerListProviders demoRegistry ∧
    managerListProviders demoRegistry = demoRegistry.instances.map Prod.fst :=
  managerListProviders_instance_table demoRegistry "echo" (by decide) rfl

/-- Counterexample to C1 as stated: with a live `p` instance and a
registered module path whose reload raises, `reload_provider` returns
`false` yet the previously live instance is still in the instance
table (the failure happens before the old instance is removed). -/
theorem reloadProvider_module_failure_keeps_old_instance :
    (reloadProvider envFailing stLive "p" Option.none).1 = false ∧
    getInstance (reloadProvider envFailing stLive "p" Option.none).2 "p" = Option.some pInst0 :=
  ⟨rfl, rfl⟩

/-- C1 (amended): `reload_provider` on a name with a live instance
never raises and returns a boolean; on `true` the table holds a newly
created instance (fresh identity, distinct from the old one); on
`false` either the module-reload step failed — in which case the state
is untouched and the old instance is still live — or the name holds no
instance at all. -/
theorem reloadProvider_live_outcomes (env : ReloadEnv) (st : RegistryState) (name : String)
    (inst : Instance) (cls : ProviderClass) (newCfg : Option PyDict)
    (hcls : dlookup name st.providers = Option.some cls)
    (hinst : dlookup name st.instances = Option.some inst)
    (hnd : (st.instances.map Prod.fst).Nodup)
    (hid : ∀ p ∈ st.instances, p.2.id < st.nextId) :
    ((reloadProvider env st name newCfg).1 = true →
      ∃ ninst,
        dlookup name (reloadProvider env st name newCfg).2.instances = Option.some ninst ∧
        ninst.id = st.nextId ∧ ¬ ninst = inst) ∧
    ((reloadProvider env st name newCfg).1 = false →
      (moduleReloadFailedB env st name = true ∧ (reloadProvider env st name newCfg).2 = st) ∨
      dlookup name (reloadProvider env st name newCfg).2.instances = Option.none) := by
  have hlt : inst.id < st.nextId := hid (name, inst) (dlookup_mem hinst)
  have hd : dlookup name (derase name st.instances) = Option.none :=
    dlookup_derase_self name hnd
  cases hmf : moduleReloadFailedB env st name with
  | true =>
    have hres : reloadProvider env st name newCfg = (false, st) := by
      simp [reloadProvider, hcls, hmf]
    rw [hres]
    exact ⟨fun h => absurd h (by simp), fun _ => Or.inl ⟨rfl, rfl⟩⟩
  | false =>
    rcases hr : createInstance { st with instances := derase name st.instances } name
        (match newCfg with
         | Option.some c => if c.isEmpty then (dlookup name st.configCache).getD [] else c
         | Option.none => (dlookup name st.configCache).getD []) with ⟨res, st2, tr⟩
    cases res with
    | ok i =>
      have hres : reloadProvider env st name newCfg = (true, st2) := by
        simp only [reloadProvider, hcls, hinst, hmf, Bool.false_eq_true, if_false]
        rw [hr]
      obtain ⟨cls2, hp2, hcase⟩ := createInstance_ok_cases hr
      rcases hcase with ⟨hmem, _, _⟩ | ⟨_, hiEq, hstEq⟩
      · have hmem2 : dlookup name (derase name st.instances) = Option.some i := hmem
        rw [hd] at hmem2
        exact absurd hmem2 (by simp)
      · subst hiEq
        subst hstEq
        rw [hres]
        refine ⟨fun _ => ⟨_, dlookup_dinsert_self name _ (derase name st.instances), rfl, ?_⟩,
                fun hfalse => absurd hfalse (by simp)⟩
        intro he
        have h2 : inst.id = st.nextId := by rw [← he]; rfl
        omega
    | error e =>
      have hres : reloadProvider env st name newCfg = (false, st2) := by
        simp only [reloadProvider, hcls, hinst, hmf, Bool.false_eq_true, if_false]
        rw [hr]
      have hst2 : st2 = { st with instances := derase name st.instances } :=
        createInstance_error_state hr
      rw [hres]
      refine ⟨fun htrue => absurd htrue (by simp), fun _ => Or.inr ?_⟩
      rw [hst2]
      exact hd

/-- Witness for `reloadProvider_live_outcomes` at `stLive` with a
succeeding module reload: the reload succeeds and installs a fresh
instance distinct from `pInst0`. -/
theorem reloadProvider_live_outcomes_witness :
    ((reloadProvider envOk stLive "p" Option.none).1 = true →
      ∃ ninst,
        dlookup "p" (reloadProvider envOk stLive "p" Option.none).2.instances =
          Option.some ninst ∧
        ninst.id = stLive.nextId ∧ ¬ ninst = pInst0) ∧
    ((reloadProvider envOk stLive "p" Option.none).1 = false →
      (moduleReloadFailedB envOk stLive "p" = true ∧
        (reloadProvider envOk stLive "p" Option.none).2 = stLive) ∨
      dlookup "p" (reloadProvider envOk stLive "p" Option.none).2.instances = Option.none) :=
  reloadProvider_live_outcomes envOk stLive "p" pInst0 echoClass Option.none rfl rfl
    (by decide) (by decide)

/-!
## Retry and classification lemmas
-/

theorem retryGo_calls_le (call : Nat → Except PyExc ChatResponse) :
    ∀ rem attempt, (retryGo call (rem + 1) attempt).2 ≤ attempt + rem := by
  intro rem
  induction rem with
  | zero =>
    intro attempt
    simp only [retryGo]
    cases call attempt <;> simp
  | succ n ih =>
    intro attempt
    show (retryGo call (Nat.succ (Nat.succ n)) attempt).2 ≤ attempt + (n + 1)
    simp only [retryGo]
    cases hc : call attempt with
    | ok r => simp
    | error e =>
      by_cases ht : isTransient e
      · simp only [ht, if_true]
        have hb := ih (attempt + 1)
        simp only [Nat.succ_eq_add_one] at *
        omega
      · simp only [ht, if_false]
        simp

/-- C4: the manager retry policy. With a live instance resolved for
the (non-falsy) requested provider name: a provider whose first two
calls raise transient errors and whose third call succeeds makes
`chat_completion` return the third call result; a first call raising a
non-transient error is never retried — exactly one call is made and
the (classified) failure surfaces; and in every case the attempt
budget of `stop_after_attempt(3)` bounds the number of provider calls
by 3. -/
theorem chatCompletion_retry_policy (d name : String) (st : RegistryState)
    (req : ChatRequest) (inst : Instance) (r : ChatResponse) (e1 e2 : PyExc)
    (hn : ¬ name = "") (hi : getInstance st name = Option.some inst) :
    ((inst.chatCall 1 (fillModel inst req) = Except.error e1 → isTransient e1 = true →
      inst.chatCall 2 (fillModel inst req) = Except.error e2 → isTransient e2 = true →
      inst.chatCall 3 (fillModel inst req) = Except.ok r →
      (managerChatCompletion d st req (Option.some name)).1 = Except.ok r) ∧
     (∀ e, inst.chatCall 1 (fillModel inst req) = Except.error e → isTransient e = false →
       (chatCompletionWithRetry inst (fillModel inst req)).2 = 1 ∧
       (managerChatCompletion d st req (Option.some name)).1 =
         Except.error (classifyError name (modelStr (fillModel inst req).model) e)) ∧
     (∀ req2 : ChatRequest, (chatCompletionWithRetry inst req2).2 ≤ 3)) := by
  refine ⟨?_, ?_, ?_⟩
  · intro h1 t1 h2 t2 h3
    have hretry : chatCompletionWithRetry inst (fillModel inst req) = (Except.ok r, 3) := by
      simp [chatCompletionWithRetry, retryGo, h1, t1, h2, t2, h3]
    simp [managerChatCompletion, hn, hi, hretry]
  · intro e h1 t1
    have hretry : chatCompletionWithRetry inst (fillModel inst req) = (Except.error e, 1) := by
      simp [chatCompletionWithRetry, retryGo, h1, t1]
    constructor
    · rw [hretry]
    · simp [managerChatCompletion, hn, hi, hretry]
  · intro req2
    exact retryGo_calls_le (fun i => inst.chatCall i req2) 2 1

/-- Witness for `chatCompletion_retry_policy`: the flaky provider
(connection error, timeout, success) yields the third-call result; the
fatal provider (non-transient `ValueError`) is called exactly once and
its classified failure surfaces; the flaky provider never exceeds 3
calls. -/
theorem chatCompletion_retry_policy_witness :
    (managerChatCompletion "flaky" stFlaky reqHi (Option.some "flaky")).1 =
      Except.ok { content := "ok", model := "m1" } ∧
    (chatCompletionWithRetry fatalInst (fillModel fatalInst reqHi)).2 = 1 ∧
    (managerChatCompletion "fatal" stFatal reqHi (Option.some "fatal")).1 =
      Except.error (classifyError "fatal" (modelStr (fillModel fatalInst reqHi).model)
        (PyExc.valueError "bad request")) ∧
    (chatCompletionWithRetry flakyInst reqHi).2 ≤ 3 :=
  ⟨(chatCompletion_retry_policy "flaky" "flaky" stFlaky reqHi flakyInst
      { content := "ok", model := "m1" } (PyExc.connectionError "refused")
      (PyExc.timeoutError "timed out") (by decide) rfl).1 rfl rfl rfl rfl rfl,
   ((chatCompletion_retry_policy "fatal" "fatal" stFatal reqHi fatalInst
      { content := "ok", model := "m1" } (PyExc.connectionError "refused")
      (PyExc.timeoutError "timed out") (by decide) rfl).2.1
      (PyExc.valueError "bad request") rfl rfl).1,
   ((chatCompletion_retry_policy "fatal" "fatal" stFatal reqHi fatalInst
      { content := "ok", model := "m1" } (PyExc.connectionError "refused")
      (PyExc.timeoutError "timed out") (by decide) rfl).2.1
      (PyExc.valueError "bad request") rfl rfl).2,
   (chatCompletion_retry_policy "flaky" "flaky" stFlaky reqHi flakyInst
      { content := "ok", model := "m1" } (PyExc.connectionError "refused")
      (PyExc.timeoutError "timed out") (by decide) rfl).2.2 reqHi⟩

/-- C5: the manager error classification. When the retried provider
call finally fails with exception `e`, `chat_completion` raises
exactly one of five classified errors, determined by matching
`str(e).lower()` in order: authentication text, then rate-limit text,
then connection or timeout text, then model-not-found text, and
otherwise the generic request-failed error. -/
theorem chatCompletion_error_classification (d name : String) (st : RegistryState)
    (req : ChatRequest) (inst : Instance) (e : PyExc)
    (hn : ¬ name = "") (hi : getInstance st name = Option.some inst)
    (hfail : (chatCompletionWithRetry inst (fillModel inst req)).1 = Except.error e) :
    ((containsSub (strLower (excMsg e)) "authentication" ||
        containsSub (strLower (excMsg e)) "api key") = true →
      (managerChatCompletion d st req (Option.some name)).1 =
        Except.error (PyExc.valueError
          ("Authentication failed for " ++ name ++ ". Please check your API key."))) ∧
    ((containsSub (strLower (excMsg e)) "authentication" ||
        containsSub (strLower (excMsg e)) "api key") = false →
      (containsSub (strLower (excMsg e)) "rate limit" ||
        containsSub (strLower (excMsg e)) "quota") = true →
      (managerChatCompletion d st req (Option.some name)).1 =
        Except.error (PyExc.valueError
          ("Rate limit exceeded for " ++ name ++ ". Please try again later."))) ∧
    ((containsSub (strLower (excMsg e)) "authentication" ||
        containsSub (strLower (excMsg e)) "api key") = false →
      (containsSub (strLower (excMsg e)) "rate limit" ||
        containsSub (strLower (excMsg e)) "quota") = false →
      (containsSub (strLower (excMsg e)) "connection" ||
        containsSub (strLower (excMsg e)) "timeout") = true →
      (managerChatCompletion d st req (Option.some name)).1 =
        Except.error (PyExc.connectionError
          ("Connection failed to " ++ name ++ ". Please check your internet connection."))) ∧
    ((containsSub (strLower (excMsg e)) "authentication" ||
        containsSub (strLower (excMsg e)) "api key") = false →
      (containsSub (strLower (excMsg e)) "rate limit" ||
        containsSub (strLower (excMsg e)) "quota") = false →
      (containsSub (strLower (excMsg e)) "connection" ||
        containsSub (strLower (excMsg e)) "timeout") = false →
      (containsSub (strLower (excMsg e)) "model" &&
        containsSub (strLower (excMsg e)) "not found") = true →
      (managerChatCompletion d st req (Option.some name)).1 =
        Except.error (PyExc.valueError
          ("Model \x27" ++ modelStr (fillModel inst req).model ++ "\x27 not available for " ++
            name ++ "."))) ∧
    ((containsSub (strLower (excMsg e)) "authentication" ||
        containsSub (strLower (excMsg e)) "api key") = false →
      (containsSub (strLower (excMsg e)) "rate limit" ||
        containsSub (strLower (excMsg e)) "quota") = false →
      (containsSub (strLower (excMsg e)) "connection" ||
        containsSub (strLower (excMsg e)) "timeout") = false →
      (containsSub (strLower (excMsg e)) "model" &&
        containsSub (strLower (excMsg e)) "not found") = false →
      (managerChatCompletion d st req (Option.some name)).1 =
        Except.error (PyExc.valueError
          ("Request failed for " ++ name ++ ": " ++ excMsg e))) := by
  rcases hret : chatCompletionWithRetry inst (fillModel inst req) with ⟨res1, k⟩
  rw [hret] at hfail
  simp only at hfail
  subst hfail
  have hres : (managerChatCompletion d st req (Option.some name)).1 =
      Except.error (classifyError name (modelStr (fillModel inst req).model) e) := by
    simp [managerChatCompletion, hn, hi, hret]
  refine ⟨?_, ?_, ?_, ?_, ?_⟩
  · intro h1
    rw [hres]
    simp [classifyError, h1]
  · intro h1 h2
    rw [hres]
    simp [classifyError, h1, h2]
  · intro h1 h2 h3
    rw [hres]
    simp [classifyError, h1, h2, h3]
  · intro h1 h2 h3 h4
    rw [hres]
    simp [classifyError, h1, h2, h3, h4]
  · intro h1 h2 h3 h4
    rw [hres]
    simp [classifyError, h1, h2, h3, h4]

/-- Witness for `chatCompletion_error_classification`: the provider
failing with text `Rate limit exceeded` surfaces the classified
rate-limit error. -/
theorem chatCompletion_error_classification_witness :
    (managerChatCompletion "rl" stRateLimit reqHi (Option.some "rl")).1 =
      Except.error (PyExc.valueError "Rate limit exceeded for rl. Please try again later.") :=
  (chatCompletion_error_classification "rl" "rl" stRateLimit reqHi rateLimitInst
      (PyExc.exception "Rate limit exceeded") (by decide) rfl rfl).2.1 (by decide) (by decide)

/-!
## Health check lemmas
-/

theorem filter_health_nil (l : List (String × Instance))
    (hl : ∀ p ∈ l, p.2.ensureInitFails = Option.none ∧
      ∃ s, p.2.healthResult = Except.ok s ∧ s.available = true) :
    (l.map (fun p => (p.1, healthEntry p.2))).filter (fun q => !q.2.available) = [] := by
  induction l with
  | nil => rfl
  | cons hd tl ih =>
    obtain ⟨h1, s, h2, h3⟩ := hl hd (List.mem_cons_self _ _)
    have hav : (healthEntry hd.2).available = true := by simp [healthEntry, h1, h2, h3]
    simp only [List.map_cons, List.filter_cons, hav]
    simpa using ih (fun p hp => hl p (List.mem_cons_of_mem _ hp))

theorem map_fst_health (l : List (String × Instance)) :
    (l.map (fun p => (p.1, healthEntry p.2))).map Prod.fst = l.map Prod.fst := by
  induction l with
  | nil => rfl
  | cons hd tl ih => simp [ih]

/-- Counterexample to C6 as stated: in `stHealth` exactly one
instance raises during its health check, yet the aggregate report
contains two unavailable statuses, because the non-raising instance
reports unavailable on its own — so "exactly the raising instance is
marked unavailable" fails. -/
theorem healthCheckAll_nonraising_unavailable :
    (stHealth.instances.filter (fun p => instRaises p.2)).length = 1 ∧
    (healthCheckAll stHealth).length = 2 ∧
    ¬ ((healthCheckAll stHealth).filter (fun q => !q.2.available)).length = 1 := by
  decide

/-- C6 (amended): `health_check_all` is total (it never raises) and
returns one status per live instance, with the instance names
preserved. If exactly one instance raises during its check (with
exception `e`) and every other instance reports an available status,
then exactly one reported status is unavailable: the raising instance
gets the synthesized status carrying the raised error text. -/
theorem healthCheckAll_one_raiser (st : RegistryState) (pre post : List (String × Instance))
    (n : String) (instR : Instance) (e : PyExc)
    (hsplit : st.instances = pre ++ (n, instR) :: post)
    (hpre : ∀ p ∈ pre, p.2.ensureInitFails = Option.none ∧
      ∃ s, p.2.healthResult = Except.ok s ∧ s.available = true)
    (hpost : ∀ p ∈ post, p.2.ensureInitFails = Option.none ∧
      ∃ s, p.2.healthResult = Except.ok s ∧ s.available = true)
    (hne : instR.ensureInitFails = Option.none)
    (hre : instR.healthResult = Except.error e) :
    (healthCheckAll st).length = st.instances.length ∧
    (healthCheckAll st).map Prod.fst = st.instances.map Prod.fst ∧
    (healthCheckAll st).filter (fun q => !q.2.available) =
      [(n, synthUnavailable (excMsg e))] := by
  refine ⟨by simp [healthCheckAll], map_fst_health st.instances, ?_⟩
  have hmid : healthEntry instR = synthUnavailable (excMsg e) := by
    simp [healthEntry, hne, hre]
  simp only [healthCheckAll, hsplit, List.map_append, List.map_cons, List.filter_append,
             List.filter_cons, hmid]
  rw [filter_health_nil pre hpre, filter_health_nil post hpost]
  simp [synthUnavailable]

/-- Witness for `healthCheckAll_one_raiser` at `stHealthMix`: two
instances, one raising with text `boom`, the other healthy; the report
has two entries, preserves names, and its only unavailable entry is
the synthesized one for `a` carrying `boom`. -/
theorem healthCheckAll_one_raiser_witness :
    (healthCheckAll stHealthMix).length = stHealthMix.instances.length ∧
    (healthCheckAll stHealthMix).map Prod.fst = stHealthMix.instances.map Prod.fst ∧
    (healthCheckAll stHealthMix).filter (fun q => !q.2.available) =
      [("a", synthUnavailable (excMsg (PyExc.exception "boom")))] :=
  healthCheckAll_one_raiser stHealthMix [] [("b", demoInst)] "a" instRaise
    (PyExc.exception "boom") rfl (by simp)
    (by
      intro p hp
      rw [List.mem_singleton] at hp
      subst hp
      exact ⟨rfl, ⟨demoStatus, rfl, rfl⟩⟩)
    rfl rfl

/-!
## Heap model lemmas
-/

theorem denoteEntries_zero (h h2 : Heap) (p : DictPayload) :
    denoteEntries h2 0 p = denoteEntries h 0 p := by
  induction p with
  | nil => rfl
  | cons hd tl ih =>
    obtain ⟨k, v⟩ := hd
    simp only [denoteEntries, List.map_cons] at *
    rw [ih]
    congr 1
    cases v with
    | prim s => rfl
    | ref a => rfl

theorem denoteEntries_frame (h h2 : Heap) (c : Addr)
    (hagree : ∀ a, ¬ a = c → heapGet h2 a = heapGet h a) :
    ∀ (fuel : Nat) (p : DictPayload), ¬ ReachesFrom h p c →
      denoteEntries h2 fuel p = denoteEntries h fuel p := by
  intro fuel
  induction fuel with
  | zero => intro p _; exact denoteEntries_zero h h2 p
  | succ f ih =>
    intro p hp
    induction p with
    | nil => rfl
    | cons hd tl ihl =>
      have htl : ¬ ReachesFrom h tl c := by
        intro hr
        apply hp
        cases hr with
        | head hmem => exact ReachesFrom.head (List.mem_cons_of_mem _ hmem)
        | step hmem hrest => exact ReachesFrom.step (List.mem_cons_of_mem _ hmem) hrest
      have htl2 := ihl htl
      obtain ⟨k, v⟩ := hd
      simp only [denoteEntries, List.map_cons]
      congr 1
      · cases v with
        | prim s => rfl
        | ref a =>
          have hac : ¬ a = c := by
            intro hEq
            exact hp (hEq ▸ ReachesFrom.head (List.mem_cons_self _ _))
          have hreach : ¬ ReachesFrom h (heapGet h a) c := by
            intro hr
            exact hp (ReachesFrom.step (List.mem_cons_self _ _) hr)
          simp only [denoteHV]
          rw [hagree a hac]
          exact congrArg (fun l => (k, PyTree.dict l)) (ih (heapGet h a) hreach)

/-- Counterexample to C8 as stated: the cached configuration is a
shallow copy, so a caller-side mutation of a nested value of the
supplied mapping (here `cfg["nested"]["k"] = "v2"` through the shared
inner dict at address 0, reachable from the caller dict at address 1)
changes the denotation of the cached entry — the cache does not hold a
deep copy. -/
theorem configCache_nested_mutation_visible :
    denoteEntries hNested 2 (cacheStore hNested 1) =
      [("nested", PyTree.dict [("k", PyTree.prim "v1")])] ∧
    denoteEntries (setKey hNested 0 "k" (HVal.prim "v2")) 2 (cacheStore hNested 1) =
      [("nested", PyTree.dict [("k", PyTree.prim "v2")])] ∧
    ReachesFrom hNested (heapGet hNested 1) 0 ∧
    ¬ denoteEntries (setKey hNested 0 "k" (HVal.prim "v2")) 2 (cacheStore hNested 1) =
        denoteEntries hNested 2 (cacheStore hNested 1) := by
  refine ⟨rfl, rfl, ReachesFrom.head (k := "nested") (a := 0) (by decide), ?_⟩
  intro hEq
  have hEq2 : ([("nested", PyTree.dict [("k", PyTree.prim "v2")])] : List (String × PyTree)) =
      [("nested", PyTree.dict [("k", PyTree.prim "v1")])] := hEq
  simp at hEq2

/-- C8 (amended): the config-cache entry stored by the registry is a
shallow copy: a distinct top-level mapping sharing its nested values.
Consequently a caller-side top-level mutation `cfg[k] = v` of the
supplied dict leaves the cached configuration denotationally
unchanged, at every depth, provided the supplied dict does not reach
itself; but (per the counterexample) mutation of a shared nested value
is visible through the cache. -/
theorem configCache_shallow_copy_top_level_frame (h : Heap) (caller : Addr)
    (k : String) (v : HVal) (fuel : Nat)
    (hself : ¬ ReachesFrom h (heapGet h caller) caller) :
    denoteEntries (setKey h caller k v) fuel (cacheStore h caller) =
      denoteEntries h fuel (cacheStore h caller) := by
  apply denoteEntries_frame
  · intro a hac
    show (dlookup a (dinsert caller (dinsert k v (heapGet h caller)) h)).getD [] =
      (dlookup a h).getD []
    rw [dlookup_dinsert_ne _ _ (fun hh => hac hh.symm)]
  · exact hself

/-- Witness for `configCache_shallow_copy_top_level_frame` on the flat
heap `hFlat`: after the caller adds a key to its own dict, the cached
copy denotes the same mapping as before. -/
theorem configCache_shallow_copy_top_level_frame_witness :
    denoteEntries (setKey hFlat 5 "kNew" (HVal.prim "w")) 3 (cacheStore hFlat 5) =
      denoteEntries hFlat 3 (cacheStore hFlat 5) :=
  configCache_shallow_copy_top_level_frame hFlat 5 "kNew" (HVal.prim "w") 3
    (by
      intro hr
      cases hr with
      | head hmem => simp [hFlat, heapGet, dlookup] at hmem
      | step hmem hrest => simp [hFlat, heapGet, dlookup] at hmem)

/-- Counterexample to C9 as stated: the caller sets the model to the
empty string — a set model — yet `chat_completion` overwrites it with
the provider default, because `if not request.model` treats the empty
string as unset. -/
theorem chatCompletion_overwrites_empty_model :
    reqEmptyModel.model = Option.some "" ∧
    (managerChatCompletion "echo" demoRegistry2 reqEmptyModel (Option.some "echo")).2.model =
      Option.some "m1" ∧
    ¬ (managerChatCompletion "echo" demoRegistry2 reqEmptyModel (Option.some "echo")).2 =
        reqEmptyModel := by
  decide

/-- C9 (amended): with a live instance resolved for the (non-falsy)
requested provider name, `chat_completion` mutates the request as
follows: when the caller-supplied model is falsy (unset or the empty
string) the model field is set to the provider default model and no
other field changes; when the caller set a non-empty model the request
passes through completely unchanged. -/
theorem managerChatCompletion_snd (d name : String) (st : RegistryState) (req : ChatRequest)
    (inst : Instance) (hn : ¬ name = "") (hi : getInstance st name = Option.some inst) :
    (managerChatCompletion d st req (Option.some name)).2 = fillModel inst req := by
  simp only [managerChatCompletion, hn, if_false, hi]
  split <;> rfl

theorem chatCompletion_fills_falsy_model_only (d name : String) (st : RegistryState)
    (req : ChatRequest) (inst : Instance)
    (hn : ¬ name = "") (hi : getInstance st name = Option.some inst) :
    (modelFalsy req.model = true →
      (managerChatCompletion d st req (Option.some name)).2 =
        { req with model := Option.some inst.defaultModel }) ∧
    (modelFalsy req.model = false →
      (managerChatCompletion d st req (Option.some name)).2 = req) := by
  constructor
  · intro hm
    rw [managerChatCompletion_snd d name st req inst hn hi]
    simp [fillModel, hm]
  · intro hm
    rw [managerChatCompletion_snd d name st req inst hn hi]
    simp [fillModel, hm]

/-- Witness for `chatCompletion_fills_falsy_model_only`: a request
with no model gets the default model `m1` filled in (and the provider,
which echoes the request model, indeed answers with model `m1`), while
a request with model `m2` passes through unchanged. -/
theorem chatCompletion_fills_falsy_model_only_witness :
    (managerChatCompletion "echo" demoRegistry2 reqHi (Option.some "echo")).2 =
      { reqHi with model := Option.some demoInst.defaultModel } ∧
    (managerChatCompletion "echo" demoRegistry2 reqM2 (Option.some "echo")).2 = reqM2 ∧
    (managerChatCompletion "echo" demoRegistry2 reqHi (Option.some "echo")).1 =
      Except.ok { content := "hi", model := "m1" } :=
  ⟨(chatCompletion_fills_falsy_model_only "echo" "echo" demoRegistry2 reqHi demoInst
      (by decide) rfl).1 rfl,
   (chatCompletion_fills_falsy_model_only "echo" "echo" demoRegistry2 reqM2 demoInst
      (by decide) rfl).2 rfl,
   rfl⟩
